import Mathlib

/-!
# Verification of the VideoToTextConverter pipeline (src/app.py)

Shallow embedding of the remote-asset processing pipeline in `src/app.py`:
the readiness poller of `StreamlitVideoExtractor.upload_video_to_gemini`
(lines 90–135), the inference calls `extract_text_from_video` (137–157) and
`summarize_text` (159–183), the resolver suffix choices in `download_video`
(line 67) and the upload tab (line 237), the failure points of
`download_video` (lines 60–88) relevant to the transient file, and the
`main` flow around the processing section (lines 244–316).

The remote service boundary is modelled by oracles: `obs i` is the state
string returned by the `i`-th query of the uploaded file (query 0 is the
state right after `genai.upload_file` returns), and each `generate_content`
call either raises (modelled `Except.error`) or returns a text (`Except.ok`,
possibly the empty string).  Progress fractions are modelled in `ℚ`;
the Python float expression `min(wait_time / max_wait_time, 0.9)` is
division by the constant 300 followed by a min, and every comparison the
claims make (monotonicity, the 0.9 cap, equality with 1.0) is preserved by
this exact-rational reading.
-/

/-- Terminal classification of one run of the poll loop in
`upload_video_to_gemini` (app.py lines 106–131). -/
inductive PollOutcome where
  /-- the `wait_time > max_wait_time` branch returned `None` (line 115) -/
  | timeout
  /-- the loop exited and `state.name == "FAILED"` (line 123) -/
  | failed
  /-- the loop exited and `state.name == "ACTIVE"`: the handle is returned (line 128) -/
  | active
  /-- the loop exited in any other state: `None` is returned (line 131) -/
  | unexpected (s : String)
  deriving DecidableEq, Repr

/-- Observable record of one run of the poll loop: its outcome, the list of
progress fractions pushed to the progress bar in order, the index of the last
observation consumed (which is also the number of sleep/re-query rounds the
loop performed), and the value of `wait_time` at exit. -/
structure PollRun where
  outcome : PollOutcome
  log : List ℚ
  finalIdx : Nat
  finalWait : Nat
  deriving DecidableEq, Repr

/-- The `max_wait_time = 300` constant of app.py line 103. -/
def max_wait_time : Nat := 300

/-- One unrolling per observation of the `while video_file.state.name ==
"PROCESSING"` loop (app.py lines 106–118) together with the epilogue
(lines 120–131).  `i` is the index of the current observation, `wait` the
current `wait_time`.  `fuel` is an upper bound on remaining iterations used
only to make the recursion structural; from the entry point `pollRun` it is
never exhausted (`2 * fuel + wait ≥ 302` is invariant, and the loop stops at
`wait = 302`), see the hypotheses of `pollAux_final`. -/
def pollAux (obs : Nat → String) : Nat → Nat → Nat → PollRun
  | 0, i, wait => ⟨.timeout, [], i, wait⟩
  | fuel + 1, i, wait =>
    if obs i = "PROCESSING" then
      -- wait_time += 2; progress = min(wait_time / max_wait_time, 0.9)
      let w := wait + 2
      let p := min ((w : ℚ) / (max_wait_time : ℚ)) (9 / 10)
      if max_wait_time < w then
        -- `if wait_time > max_wait_time: return None` (lines 113–115)
        ⟨.timeout, [p], i, w⟩
      else
        -- time.sleep(2); video_file = genai.get_file(...) — next observation
        let r := pollAux obs fuel (i + 1) w
        ⟨r.outcome, p :: r.log, r.finalIdx, r.finalWait⟩
    else
      -- progress_bar.progress(1.0) (line 120), then the state dispatch
      if obs i = "FAILED" then ⟨.failed, [1], i, wait⟩
      else if obs i = "ACTIVE" then ⟨.active, [1], i, wait⟩
      else ⟨.unexpected (obs i), [1], i, wait⟩

/-- A full run of the poll loop from `wait_time = 0` on observation stream
`obs`.  Fuel 152 suffices: the loop can consume at most 151 observations
before the timeout branch fires at `wait_time = 302`. -/
def pollRun (obs : Nat → String) : PollRun := pollAux obs 152 0 0

/-- The value `upload_video_to_gemini` returns once the poll loop has run:
the handle (identified here by the index of its final observation) exactly
when the outcome is `ACTIVE`, `None` otherwise (app.py lines 113–131). -/
def pollReturn (obs : Nat → String) : Option Nat :=
  match (pollRun obs).outcome with
  | .active => some (pollRun obs).finalIdx
  | _ => none

example : (pollRun (fun _ => "ACTIVE")).outcome = .active := by decide
example : (pollRun (fun _ => "FAILED")).log = [1] := by decide
example : pollReturn (fun _ => "weird") = none := by decide

/-! ## Basic poll-loop lemmas -/

/-- Unfolding of one `PROCESSING` iteration that does not time out:
the run continues with the next observation and `wait_time` advanced by 2,
with the emitted progress fraction prepended to the log. -/
theorem pollAux_advance (obs : Nat → String) (fuel i wait : Nat)
    (h : obs i = "PROCESSING") (hw : wait + 2 ≤ max_wait_time) :
    pollAux obs (fuel + 1) i wait =
      ⟨(pollAux obs fuel (i + 1) (wait + 2)).outcome,
        min ((wait + 2 : ℚ) / (max_wait_time : ℚ)) (9 / 10) ::
          (pollAux obs fuel (i + 1) (wait + 2)).log,
        (pollAux obs fuel (i + 1) (wait + 2)).finalIdx,
        (pollAux obs fuel (i + 1) (wait + 2)).finalWait⟩ := by
  have hnot : ¬ max_wait_time < wait + 2 := by omega
  simp [pollAux, h, hnot]

/-- Unfolding of the iteration in which the timeout branch fires. -/
theorem pollAux_timeout_step (obs : Nat → String) (fuel i wait : Nat)
    (h : obs i = "PROCESSING") (hw : max_wait_time < wait + 2) :
    pollAux obs (fuel + 1) i wait =
      ⟨.timeout, [min ((wait + 2 : ℚ) / (max_wait_time : ℚ)) (9 / 10)], i, wait + 2⟩ := by
  simp [pollAux, h, hw]

/-- Unfolding of the epilogue when the current observation is not
`PROCESSING`: progress 1.0 is emitted and the state is classified. -/
theorem pollAux_exit (obs : Nat → String) (fuel i wait : Nat)
    (h : obs i ≠ "PROCESSING") :
    pollAux obs (fuel + 1) i wait =
      ⟨if obs i = "FAILED" then .failed
        else if obs i = "ACTIVE" then .active
        else .unexpected (obs i), [1], i, wait⟩ := by
  by_cases hf : obs i = "FAILED" <;> by_cases ha : obs i = "ACTIVE" <;>
    simp [pollAux, h, hf, ha]

/-- Classification of the final observation.  As long as the fuel cannot run
out (`302 ≤ 2 * fuel + wait`, an invariant of the real loop, whose own bound
`wait ≤ 300` also holds), the run ends on outcome `active` exactly when the
final observation is `ACTIVE`, on `failed` exactly when it is `FAILED`, and
the timeout branch can fire only while observing `PROCESSING`. -/
theorem pollAux_final (obs : Nat → String) (fuel : Nat) :
    ∀ i wait, 302 ≤ 2 * fuel + wait → wait ≤ max_wait_time →
      (((pollAux obs fuel i wait).outcome = .active ↔
          obs (pollAux obs fuel i wait).finalIdx = "ACTIVE") ∧
        ((pollAux obs fuel i wait).outcome = .failed ↔
          obs (pollAux obs fuel i wait).finalIdx = "FAILED") ∧
        ((pollAux obs fuel i wait).outcome = .timeout →
          obs (pollAux obs fuel i wait).finalIdx = "PROCESSING")) := by
  induction fuel with
  | zero => intro i wait hfuel hwait; simp [max_wait_time] at hfuel hwait; omega
  | succ fuel ih =>
    intro i wait hfuel hwait
    by_cases h : obs i = "PROCESSING"
    · by_cases hto : max_wait_time < wait + 2
      · rw [pollAux_timeout_step obs fuel i wait h hto]
        simp [h]
      · rw [pollAux_advance obs fuel i wait h (by omega)]
        have := ih (i + 1) (wait + 2) (by omega) (by omega)
        simpa using this
    · rw [pollAux_exit obs fuel i wait h]
      by_cases hf : obs i = "FAILED" <;> by_cases ha : obs i = "ACTIVE" <;>
        simp_all

/-- If every observation is `PROCESSING`, the run times out (this holds for
every fuel value, the fuel-exhausted default included). -/
theorem pollAux_allProcessing (obs : Nat → String)
    (h : ∀ j, obs j = "PROCESSING") (fuel : Nat) :
    ∀ i wait, (pollAux obs fuel i wait).outcome = .timeout := by
  induction fuel with
  | zero => intro i wait; simp [pollAux]
  | succ fuel ih =>
    intro i wait
    by_cases hto : max_wait_time < wait + 2
    · rw [pollAux_timeout_step obs fuel i wait (h i) hto]
    · rw [pollAux_advance obs fuel i wait (h i) (by omega)]
      exact ih (i + 1) (wait + 2)

/-! ## Progress-log lemmas -/

/-- The progress formula `min(wait_time / max_wait_time, 0.9)` is monotone in
`wait_time`. -/
theorem progress_mono (w : Nat) :
    min ((w : ℚ) / (max_wait_time : ℚ)) (9 / 10) ≤
      min ((w + 2 : ℚ) / (max_wait_time : ℚ)) (9 / 10) := by
  refine min_le_min ?_ le_rfl
  have h300 : (0 : ℚ) < (max_wait_time : ℚ) := by norm_num [max_wait_time]
  exact (div_le_div_iff_of_pos_right h300).mpr (by linarith)

/-- Every progress value emitted inside the loop is at most `0.9`. -/
theorem progress_le (w : Nat) :
    min ((w : ℚ) / (max_wait_time : ℚ)) (9 / 10) ≤ 9 / 10 :=
  min_le_right _ _

/-- The emitted progress log is non-decreasing: prepending any value below
the next progress fraction keeps the whole log a `≤`-chain. -/
theorem pollAux_log_chain (obs : Nat → String) (fuel : Nat) :
    ∀ (i wait : Nat) (q : ℚ),
      q ≤ min ((wait + 2 : ℚ) / (max_wait_time : ℚ)) (9 / 10) →
      List.Chain' (· ≤ ·) (q :: (pollAux obs fuel i wait).log) := by
  induction fuel with
  | zero => intro i wait q _; simp [pollAux]
  | succ fuel ih =>
    intro i wait q hq
    by_cases h : obs i = "PROCESSING"
    · by_cases hto : max_wait_time < wait + 2
      · rw [pollAux_timeout_step obs fuel i wait h hto]
        simpa using hq
      · rw [pollAux_advance obs fuel i wait h (by omega)]
        have hrest := ih (i + 1) (wait + 2)
          (min ((wait + 2 : ℚ) / (max_wait_time : ℚ)) (9 / 10))
          (by push_cast; exact_mod_cast progress_mono (wait + 2))
        exact List.chain'_cons.mpr ⟨hq, hrest⟩
    · rw [pollAux_exit obs fuel i wait h]
      have h1 : q ≤ (1 : ℚ) :=
        le_trans hq (le_trans (min_le_right _ _) (by norm_num))
      simpa using h1

/-- Shape of the progress log: on a timeout run every emitted value is at
most `0.9` (no `1.0` is ever shown); on every other run the log is a block
of values at most `0.9` followed by a single final `1.0`. -/
theorem pollAux_log_shape (obs : Nat → String) (fuel : Nat) :
    ∀ i wait,
      (((pollAux obs fuel i wait).outcome = .timeout →
          ∀ p ∈ (pollAux obs fuel i wait).log, p ≤ 9 / 10) ∧
        ((pollAux obs fuel i wait).outcome ≠ .timeout →
          ∃ l, (pollAux obs fuel i wait).log = l ++ [1] ∧ ∀ p ∈ l, p ≤ 9 / 10)) := by
  induction fuel with
  | zero =>
    intro i wait
    constructor
    · intro _; simp [pollAux]
    · intro hne; exact absurd rfl hne
  | succ fuel ih =>
    intro i wait
    by_cases h : obs i = "PROCESSING"
    · by_cases hto : max_wait_time < wait + 2
      · rw [pollAux_timeout_step obs fuel i wait h hto]
        constructor
        · intro _ p hp
          simp at hp
          simp [hp]
        · intro hne; exact absurd rfl hne
      · rw [pollAux_advance obs fuel i wait h (by omega)]
        have hih := ih (i + 1) (wait + 2)
        constructor
        · intro hto2 p hp
          simp at hp hto2
          rcases hp with hp | hp
          · simp [hp]
          · exact hih.1 hto2 p hp
        · intro hne
          simp at hne
          rcases hih.2 hne with ⟨l, hl, hbound⟩
          refine ⟨min ((wait + 2 : ℚ) / (max_wait_time : ℚ)) (9 / 10) :: l, by simp [hl], ?_⟩
          intro p hp
          rcases List.mem_cons.mp hp with hp | hp
          · simp [hp]
          · exact hbound p hp
    · rw [pollAux_exit obs fuel i wait h]
      constructor
      · intro hto
        by_cases hf : obs i = "FAILED" <;> by_cases ha : obs i = "ACTIVE" <;>
          simp_all
      · intro _
        exact ⟨[], by simp, by simp⟩

/-- Running the poller when the first `k ≤ 150` observations are
`PROCESSING`: the run coincides (outcome, final index, final `wait_time`)
with the run that starts at observation `k` with `wait_time = 2 * k` and the
correspondingly reduced fuel. -/
theorem pollRun_skip (obs : Nat → String) (k : Nat) (hk : k ≤ 150)
    (h : ∀ j, j < k → obs j = "PROCESSING") :
    ((pollRun obs).outcome = (pollAux obs (152 - k) k (2 * k)).outcome ∧
      (pollRun obs).finalIdx = (pollAux obs (152 - k) k (2 * k)).finalIdx ∧
      (pollRun obs).finalWait = (pollAux obs (152 - k) k (2 * k)).finalWait) := by
  induction k with
  | zero => exact ⟨rfl, rfl, rfl⟩
  | succ k ih =>
    obtain ⟨h1, h2, h3⟩ := ih (by omega) (fun j hj => h j (by omega))
    have hfe : 152 - k = (152 - (k + 1)) + 1 := by omega
    rw [hfe, pollAux_advance obs (152 - (k + 1)) k (2 * k) (h k (by omega))
      (by unfold max_wait_time; omega)] at h1 h2 h3
    have harg : 2 * k + 2 = 2 * (k + 1) := by omega
    rw [harg] at h1 h2 h3
    exact ⟨h1, h2, h3⟩

/-! ## The remote boundary and the pipeline of `main` (app.py lines 244–316)

`Env` packages one run's interaction with the external collaborators:
the observation stream of the uploaded file's state, whether
`genai.upload_file` itself succeeded (its exception is caught by the
`try` of `upload_video_to_gemini`), the outcome of each of the two
`generate_content` calls — `Except.error` models a raised exception
(service fault or a response whose `.text` accessor raises),
`Except.ok t` a response whose `.text` is `t` (possibly empty) — and
whether the `os.unlink` of the cleanup block succeeds (its own fault is
swallowed by the `except: pass` of app.py lines 315–316). -/

structure Env where
  obs : Nat → String
  uploadOk : Bool
  extractResp : Except String String
  summaryResp : Except String String
  unlinkOk : Bool

/-- `StreamlitVideoExtractor.upload_video_to_gemini` (app.py lines 90–135):
on an upload exception the `except` branch returns `None`; otherwise the
poll loop runs and the handle is returned exactly on outcome `ACTIVE`. -/
def upload_video_to_gemini (e : Env) : Option Nat :=
  if e.uploadOk then pollReturn e.obs else none

/-- `StreamlitVideoExtractor.extract_text_from_video` (app.py lines 137–157):
`return response.text` on success — with no emptiness check — and `None`
from the `except` branch when the call or the `.text` accessor raises. -/
def extract_text_from_video : Except String String → Option String
  | .ok t => some t
  | .error _ => none

/-- `StreamlitVideoExtractor.summarize_text` (app.py lines 159–183): same
shape as extraction — `return response.text`, or `None` on an exception. -/
def summarize_text : Except String String → Option String
  | .ok t => some t
  | .error _ => none

/-- The `'-' * 50` separator of app.py line 303. -/
def dashLine : String := String.mk (List.replicate 50 '-')

/-- The combined report of app.py line 303:
`f"EXTRACTED TEXT:\n{'-'*50}\n{extracted_text}\n\n\nSUMMARY:\n{'-'*50}\n{summary}"`. -/
def combined_text (extracted_text summary : String) : String :=
  "EXTRACTED TEXT:\n" ++ dashLine ++ "\n" ++ extracted_text ++
    "\n\n\nSUMMARY:\n" ++ dashLine ++ "\n" ++ summary

/-- The three download buttons of app.py lines 279–309, as
(filename, payload) pairs in order of appearance. -/
def artifactsFor (extracted_text summary : String) : List (String × String) :=
  [("extracted_text.txt", extracted_text),
    ("video_summary.txt", summary),
    ("video_analysis_report.txt", combined_text extracted_text summary)]

/-- The cleanup block of app.py lines 311–316 acting on whether the
transient file exists: `if os.path.exists(video_path): os.unlink(video_path)`
inside a `try` whose `except: pass` swallows unlink faults — when
`os.unlink` raises (`unlinkOk = false`) the file is left in place. -/
def cleanupFile (unlinkOk fileExists : Bool) : Bool :=
  if fileExists then (if unlinkOk then false else fileExists) else fileExists

/-- Observable record of the processing section of `main` for one resolved
video (app.py lines 244–316): how many times extraction was invoked, the
exact inputs passed to `summarize_text`, the (extracted, summary) pair
rendered — `none` when nothing is rendered —, the download artifacts
offered, and whether the transient file still exists after the cleanup
block. -/
structure Trace where
  extractCalls : Nat
  summarizeInputs : List String
  rendered : Option (String × String)
  artifacts : List (String × String)
  fileExistsAtEnd : Bool
  deriving DecidableEq, Repr

/-- The processing section of `main` (app.py lines 244–316), entered with
the resolver's transient file in place.  Each stage guards the next with a
Python truthiness test (`if video_file:`, `if extracted_text:`,
`if summary:`), under which `None` and the empty string are both falsy, and
the cleanup block runs on every path. -/
def main_pipeline (e : Env) : Trace :=
  match upload_video_to_gemini e with
  | none => ⟨0, [], none, [], cleanupFile e.unlinkOk true⟩
  | some _ =>
    match extract_text_from_video e.extractResp with
    | none => ⟨1, [], none, [], cleanupFile e.unlinkOk true⟩
    | some t =>
      if t = "" then ⟨1, [], none, [], cleanupFile e.unlinkOk true⟩
      else
        match summarize_text e.summaryResp with
        | none => ⟨1, [t], none, [], cleanupFile e.unlinkOk true⟩
        | some s =>
          if s = "" then ⟨1, [t], none, [], cleanupFile e.unlinkOk true⟩
          else ⟨1, [t], some (t, s), artifactsFor t s, cleanupFile e.unlinkOk true⟩

/-! ## The resolver's transient-file suffix (app.py lines 67 and 237) -/

/-- The fixed allow-list of the file picker (app.py line 230). -/
def accepted_extensions : List String :=
  ["mp4", "mov", "avi", "webm", "mpg", "mpeg", "wmv", "flv"]

/-- An input video source: a URL, or an uploaded file of a given container
extension (the format hint of the picker). -/
inductive VideoSource where
  | url (address : String)
  | upload (ext : String)

/-- The suffix the resolver hands to `tempfile.NamedTemporaryFile`:
`suffix='.mp4'` in `download_video` (app.py line 67) and `suffix='.mp4'`
for an uploaded file (app.py line 237) — the same literal on both paths. -/
def resolverSuffix : VideoSource → String
  | .url _ => ".mp4"
  | .upload _ => ".mp4"

/-- Modelled from the spec: "bytes persisted to a transient, uniquely-named
location suffixed appropriately for the media type" (spec §4.1) — the suffix
appropriate for an uploaded file whose container extension is `ext`.  The
source has no such computation; this definition exists only to be compared
with `resolverSuffix`. -/
def appropriateSuffix (ext : String) : String := "." ++ ext

example : main_pipeline ⟨fun _ => "ACTIVE", true, .ok "E", .ok "S", true⟩ =
    ⟨1, ["E"], some ("E", "S"), artifactsFor "E" "S", false⟩ := by decide
example : main_pipeline ⟨fun _ => "FAILED", true, .ok "E", .ok "S", true⟩ =
    ⟨0, [], none, [], false⟩ := by decide
example : main_pipeline ⟨fun _ => "ACTIVE", true, .ok "", .ok "S", true⟩ =
    ⟨1, [], none, [], false⟩ := by decide

/-! ## The resolver's failure points and the full run of `main` -/

/-- Outcome of `StreamlitVideoExtractor.download_video` (app.py lines
60–88) with respect to the transient file: the `try` can fail before the
`tempfile.NamedTemporaryFile(delete=False, suffix='.mp4')` call of line 67
(`requests.get` or `raise_for_status` raising), fail after it (a fault
while streaming or writing chunks, lines 76–82), or run to completion and
return the path. -/
inductive DownloadResult where
  | failBeforeCreate
  | failAfterCreate
  | success
  deriving DecidableEq, Repr

/-- `download_video` as `main` observes it: the returned `video_path`
(`None` from the `except` branch of lines 86–88; the temp-file name is
abstracted to `Unit`) paired with whether the transient file was created.
The `except` branch only reports the error and returns `None` — it never
deletes a file that line 67 already created. -/
def download_video : DownloadResult → Option Unit × Bool
  | .failBeforeCreate => (none, false)
  | .failAfterCreate => (none, true)
  | .success => (some (), true)

/-- The URL-tab run of `main` end to end for the resource contract:
`video_path = extractor.download_video(...)` (line 222), then the
`if video_path:` guard (line 245) under which both the processing section
and the cleanup block (lines 311–316) sit — nothing outside that guard
touches the file.  Returns the processing trace (`none` when the guard was
false and nothing ran) and whether the transient file still exists after
`main` returns. -/
def main_run (d : DownloadResult) (e : Env) : Option Trace × Bool :=
  match download_video d with
  | (none, created) => (none, created)
  | (some _, _) => (some (main_pipeline e), (main_pipeline e).fileExistsAtEnd)

/-! ## Claim theorems -/

/-- `pollAux_final` specialised to the entry point `pollRun`. -/
theorem pollRun_final (obs : Nat → String) :
    (((pollRun obs).outcome = .active ↔
        obs (pollRun obs).finalIdx = "ACTIVE") ∧
      ((pollRun obs).outcome = .failed ↔
        obs (pollRun obs).finalIdx = "FAILED") ∧
      ((pollRun obs).outcome = .timeout →
        obs (pollRun obs).finalIdx = "PROCESSING")) :=
  pollAux_final obs 152 0 0 (by omega) (by unfold max_wait_time; omega)

/-- C1: for every terminal observation of the readiness poller, the handle
is returned if and only if the final observed state is `ACTIVE`; on any
non-`ACTIVE` outcome (`FAILED`, a state outside the known enum, or timeout)
`upload_video_to_gemini` returns `None` and `main` never calls
`extract_text_from_video`. -/
theorem c1_poller_exit_contract (e : Env) (hu : e.uploadOk = true) :
    ((upload_video_to_gemini e).isSome = true ↔
      e.obs (pollRun e.obs).finalIdx = "ACTIVE") ∧
    ((pollRun e.obs).outcome ≠ PollOutcome.active →
      upload_video_to_gemini e = none ∧ (main_pipeline e).extractCalls = 0) := by
  obtain ⟨hact, hfail, hto⟩ := pollRun_final e.obs
  have hup : upload_video_to_gemini e = pollReturn e.obs := by
    unfold upload_video_to_gemini; rw [hu]; simp
  constructor
  · rw [hup]
    unfold pollReturn
    cases houtcome : (pollRun e.obs).outcome with
    | active => simpa [houtcome] using hact.mp houtcome
    | failed =>
      have hf := hfail.mp houtcome
      simp only [houtcome, Option.isSome_none]
      constructor
      · intro hc; exact absurd hc (by decide)
      · intro hA; rw [hA] at hf; exact absurd hf (by decide)
    | timeout =>
      have hp := hto houtcome
      simp only [houtcome, Option.isSome_none]
      constructor
      · intro hc; exact absurd hc (by decide)
      · intro hA; rw [hA] at hp; exact absurd hp (by decide)
    | unexpected s =>
      simp only [houtcome, Option.isSome_none]
      constructor
      · intro hc; exact absurd hc (by decide)
      · intro hA
        have := hact.mpr hA
        rw [houtcome] at this
        exact absurd this (by simp)
  · intro hne
    have hnone : upload_video_to_gemini e = none := by
      rw [hup]
      unfold pollReturn
      cases houtcome : (pollRun e.obs).outcome with
      | active => exact absurd houtcome hne
      | failed => rfl
      | timeout => rfl
      | unexpected s => rfl
    exact ⟨hnone, by unfold main_pipeline; rw [hnone]⟩

theorem c1_poller_exit_contract_witness :
    upload_video_to_gemini ⟨fun _ => "FAILED", true, Except.ok "E", Except.ok "S", true⟩ = none ∧
      (main_pipeline ⟨fun _ => "FAILED", true, Except.ok "E", Except.ok "S", true⟩).extractCalls = 0 :=
  (c1_poller_exit_contract ⟨fun _ => "FAILED", true, Except.ok "E", Except.ok "S", true⟩ rfl).2
    (by decide)

/-- C2: if the remote state remains `PROCESSING` on every query, the poll
loop aborts through the timeout branch once `wait_time` exceeds the
300-unit ceiling, no handle is returned, and extraction is never attempted
in that run — however many intermediate `PROCESSING` polls occurred. -/
theorem c2_timeout_abort (e : Env) (h : ∀ j, e.obs j = "PROCESSING") :
    (pollRun e.obs).outcome = PollOutcome.timeout ∧
    pollReturn e.obs = none ∧
    upload_video_to_gemini e = none ∧
    (main_pipeline e).extractCalls = 0 := by
  have hto : (pollRun e.obs).outcome = .timeout :=
    pollAux_allProcessing e.obs h 152 0 0
  have hret : pollReturn e.obs = none := by unfold pollReturn; rw [hto]
  have hup : upload_video_to_gemini e = none := by
    unfold upload_video_to_gemini
    cases hu : e.uploadOk <;> simp [hret]
  exact ⟨hto, hret, hup, by unfold main_pipeline; rw [hup]⟩

theorem c2_timeout_abort_witness :
    (pollRun (fun _ => "PROCESSING")).outcome = PollOutcome.timeout ∧
    pollReturn (fun _ => "PROCESSING") = none ∧
    upload_video_to_gemini ⟨fun _ => "PROCESSING", true, Except.ok "E", Except.ok "S", true⟩ = none ∧
    (main_pipeline ⟨fun _ => "PROCESSING", true, Except.ok "E", Except.ok "S", true⟩).extractCalls = 0 :=
  c2_timeout_abort ⟨fun _ => "PROCESSING", true, Except.ok "E", Except.ok "S", true⟩ (fun _ => rfl)

/-- C9: when the very first query after upload already observes `ACTIVE`,
the loop body never runs — zero sleep/re-query rounds (`finalIdx = 0`,
`finalWait = 0`) — progress 1.0 is the only emitted value, and the handle is
returned immediately. -/
theorem c9_immediate_active (e : Env) (hu : e.uploadOk = true)
    (h : e.obs 0 = "ACTIVE") :
    pollRun e.obs = ⟨PollOutcome.active, [1], 0, 0⟩ ∧
    upload_video_to_gemini e = some 0 := by
  have h1 : pollRun e.obs = ⟨PollOutcome.active, [1], 0, 0⟩ := by
    have e152 : (152 : Nat) = 151 + 1 := by norm_num
    unfold pollRun
    rw [e152, pollAux_exit e.obs 151 0 0 (by rw [h]; decide)]
    simp [h]
  refine ⟨h1, ?_⟩
  unfold upload_video_to_gemini pollReturn
  rw [hu, h1]
  simp

theorem c9_immediate_active_witness :
    pollRun (fun _ => "ACTIVE") = ⟨PollOutcome.active, [1], 0, 0⟩ ∧
    upload_video_to_gemini ⟨fun _ => "ACTIVE", true, Except.ok "E", Except.ok "S", true⟩ = some 0 :=
  c9_immediate_active ⟨fun _ => "ACTIVE", true, Except.ok "E", Except.ok "S", true⟩ rfl rfl

/-- C10: `wait_time` advances in fixed steps of 2 and the comparison
`wait_time > max_wait_time` is strict, so after 150 `PROCESSING`
observations (`wait_time = 300`) the loop still sleeps and re-queries; if
observation 150 — the 151st consecutive `PROCESSING` — arrives, the timeout
branch fires at `wait_time = 302`, while an `ACTIVE` observation there is
still honoured with the handle. -/
theorem c10_timeout_boundary (e : Env)
    (h : ∀ j, j ≤ 149 → e.obs j = "PROCESSING") :
    (e.obs 150 = "PROCESSING" →
      (pollRun e.obs).outcome = PollOutcome.timeout ∧
      (pollRun e.obs).finalIdx = 150 ∧
      (pollRun e.obs).finalWait = 302) ∧
    (e.obs 150 = "ACTIVE" →
      (pollRun e.obs).outcome = PollOutcome.active ∧
      (pollRun e.obs).finalIdx = 150 ∧
      (pollRun e.obs).finalWait = 300 ∧
      pollReturn e.obs = some 150) := by
  obtain ⟨h1, h2, h3⟩ :=
    pollRun_skip e.obs 150 (by omega) (fun j hj => h j (by omega))
  have e2 : (152 - 150 : Nat) = 1 + 1 := by norm_num
  have e300 : (2 * 150 : Nat) = 300 := by norm_num
  rw [e2, e300] at h1 h2 h3
  constructor
  · intro hp
    rw [pollAux_timeout_step e.obs 1 150 300 hp (by unfold max_wait_time; omega)]
      at h1 h2 h3
    exact ⟨h1, h2, h3⟩
  · intro ha
    rw [pollAux_exit e.obs 1 150 300 (by rw [ha]; decide)] at h1 h2 h3
    simp only [ha] at h1
    have houtcome : (pollRun e.obs).outcome = PollOutcome.active := by
      rw [h1]; decide
    refine ⟨houtcome, h2, h3, ?_⟩
    unfold pollReturn
    rw [houtcome, h2]

theorem c10_timeout_boundary_witness :
    (pollRun (fun _ => "PROCESSING")).outcome = PollOutcome.timeout ∧
    (pollRun (fun _ => "PROCESSING")).finalIdx = 150 ∧
    (pollRun (fun _ => "PROCESSING")).finalWait = 302 :=
  (c10_timeout_boundary ⟨fun _ => "PROCESSING", true, Except.ok "E", Except.ok "S", true⟩
    (fun _ _ => rfl)).1 rfl

/-- C3 counterexample: when the first poll already observes `FAILED`, the
epilogue at app.py line 120 still pushes progress 1.0 before classifying the
state, so 1.0 is reported although the state never became `ACTIVE` — the
claim "the value 1.0 is reported only upon reaching state ACTIVE" is false. -/
theorem c3_progress_counterexample :
    (1 : ℚ) ∈ (pollRun fun _ => "FAILED").log ∧
    (pollRun fun _ => "FAILED").outcome = PollOutcome.failed ∧
    (∀ j : Nat, (fun _ : Nat => "FAILED") j ≠ "ACTIVE") :=
  ⟨by decide, by decide, fun _ => by simp⟩

/-- C3 (amended): across every run the emitted progress sequence is
monotonically non-decreasing; on a timeout run every emitted value is at
most 0.9; on every other run — the loop exiting on `ACTIVE`, `FAILED`, or
any unexpected state alike — the log is a block of values at most 0.9
followed by a single final 1.0 (so 1.0 marks any non-`PROCESSING` terminal
observation, not only `ACTIVE`). -/
theorem c3_progress_monotone_amended (obs : Nat → String) :
    List.Chain' (· ≤ ·) (pollRun obs).log ∧
    ((pollRun obs).outcome = PollOutcome.timeout →
      ∀ p ∈ (pollRun obs).log, p ≤ 9 / 10) ∧
    ((pollRun obs).outcome ≠ PollOutcome.timeout →
      ∃ l, (pollRun obs).log = l ++ [1] ∧ ∀ p ∈ l, p ≤ 9 / 10) := by
  refine ⟨?_, (pollAux_log_shape obs 152 0 0).1, (pollAux_log_shape obs 152 0 0).2⟩
  have hchain := pollAux_log_chain obs 152 0 0
    (min ((0 + 2 : ℚ) / (max_wait_time : ℚ)) (9 / 10)) le_rfl
  exact (List.chain'_cons'.mp hchain).2

theorem c3_progress_monotone_amended_witness :
    ∃ l, (pollRun fun _ => "ACTIVE").log = l ++ [1] ∧ ∀ p ∈ l, p ≤ 9 / 10 :=
  (c3_progress_monotone_amended fun _ => "ACTIVE").2.2 (by decide)

/-- C4: `summarize_text` is never invoked when extraction failed or
returned the empty string; when extraction yields non-empty text it is
invoked exactly once, with exactly that text; and a summary is rendered
only after a prior non-empty extraction. -/
theorem c4_summarize_gating (e : Env) :
    ((extract_text_from_video e.extractResp = none ∨
        extract_text_from_video e.extractResp = some "" →
      (main_pipeline e).summarizeInputs = []) ∧
    (∀ t, extract_text_from_video e.extractResp = some t → t ≠ "" →
      (main_pipeline e).extractCalls = 1 →
      (main_pipeline e).summarizeInputs = [t]) ∧
    (∀ t s, (main_pipeline e).rendered = some (t, s) →
      t ≠ "" ∧ extract_text_from_video e.extractResp = some t ∧
        (main_pipeline e).summarizeInputs = [t])) := by
  cases h1 : upload_video_to_gemini e with
  | none =>
    refine ⟨?_, ?_, ?_⟩ <;> simp [main_pipeline, h1]
  | some v =>
    cases h2 : extract_text_from_video e.extractResp with
    | none =>
      refine ⟨?_, ?_, ?_⟩ <;> simp [main_pipeline, h1, h2]
    | some t =>
      by_cases ht : t = ""
      · subst ht
        refine ⟨?_, ?_, ?_⟩ <;> simp [main_pipeline, h1, h2]
      · cases h3 : summarize_text e.summaryResp with
        | none =>
          refine ⟨?_, ?_, ?_⟩ <;> simp_all [main_pipeline, h1, h2, h3, ht]
        | some s =>
          by_cases hs : s = "" <;>
            refine ⟨?_, ?_, ?_⟩ <;> simp_all [main_pipeline, h1, h2, h3, ht]

theorem c4_summarize_gating_witness :
    ("E" : String) ≠ "" ∧
      extract_text_from_video (Env.extractResp
        ⟨fun _ => "ACTIVE", true, Except.ok "E", Except.ok "S", true⟩) = some "E" ∧
      (main_pipeline ⟨fun _ => "ACTIVE", true, Except.ok "E", Except.ok "S", true⟩).summarizeInputs
        = ["E"] :=
  (c4_summarize_gating ⟨fun _ => "ACTIVE", true, Except.ok "E", Except.ok "S", true⟩).2.2
    "E" "S" (by decide)

/-- On every exit path of the processing section itself, the
`fileExistsAtEnd` field is the cleanup block applied to an existing file. -/
theorem main_pipeline_cleanup (e : Env) :
    (main_pipeline e).fileExistsAtEnd = cleanupFile e.unlinkOk true := by
  unfold main_pipeline
  cases upload_video_to_gemini e with
  | none => rfl
  | some v =>
    cases extract_text_from_video e.extractResp with
    | none => rfl
    | some t =>
      by_cases ht : t = ""
      · simp [ht]
      · cases summarize_text e.summaryResp with
        | none => simp [ht]
        | some s =>
          by_cases hs : s = "" <;> simp [ht, hs]

/-- C5 counterexample: a download fault after line 67 has already created
the transient file (with `delete=False`) is caught at line 86 and
`download_video` returns `None`; the `if video_path:` guard of line 245 is
then false, so the processing section and the cleanup block of lines
311–316 are both skipped — the transient file still exists after `main`
returns, falsifying "on every exit path the transient video file is
deleted at pipeline end". -/
theorem c5_leak_counterexample :
    (main_run DownloadResult.failAfterCreate
      ⟨fun _ => "ACTIVE", true, Except.ok "E", Except.ok "S", true⟩).2 = true ∧
    (main_run DownloadResult.failAfterCreate
      ⟨fun _ => "ACTIVE", true, Except.ok "E", Except.ok "S", true⟩).1 = none :=
  ⟨rfl, rfl⟩

/-- C5 (amended): once the resolver completes and hands `main` a path, the
cleanup block runs on every exit path of the processing section — success
or any stage failure (each stage catches its own exceptions and returns
`None`, so none escapes past the pipeline) — and the transient file is
gone at pipeline end provided `os.unlink` succeeds.  The file survives
pipeline end exactly when the resolver failed after creating it (the
line 245 guard then skips processing and cleanup alike) or the swallowed
`os.unlink` call failed. -/
theorem c5_transient_file_amended (d : DownloadResult) (e : Env) :
    (d = DownloadResult.success → e.unlinkOk = true →
      (main_run d e).2 = false) ∧
    ((main_run d e).2 = true ↔
      d = DownloadResult.failAfterCreate ∨
        (d = DownloadResult.success ∧ e.unlinkOk = false)) := by
  have hmp : (main_pipeline e).fileExistsAtEnd = cleanupFile e.unlinkOk true :=
    main_pipeline_cleanup e
  cases d <;> cases hu : e.unlinkOk <;>
    simp [main_run, download_video, hmp, cleanupFile, hu]

theorem c5_transient_file_amended_witness :
    (main_run DownloadResult.success
      ⟨fun _ => "FAILED", true, Except.ok "E", Except.ok "S", true⟩).2 = false :=
  (c5_transient_file_amended DownloadResult.success
    ⟨fun _ => "FAILED", true, Except.ok "E", Except.ok "S", true⟩).1 rfl rfl

/-- C6 counterexample: a `generate_content` response that raises nothing
and whose `.text` is the empty string is returned by
`extract_text_from_video` as a successful (non-`None`) result — the claim
"it never returns an empty string as a successful result" is false. -/
theorem c6_empty_success_counterexample :
    extract_text_from_video (Except.ok "") = some "" ∧
    extract_text_from_video (Except.ok "") ≠ none :=
  ⟨rfl, by decide⟩

/-- C6 (amended): extraction fails (reports the error, returns `None`)
exactly when the service call or the response's text accessor raises; a
response that yields the empty string without raising is returned as a
successful result — the downstream truthiness guard in `main` then stops
the pipeline, so no summary and no rendering follow from it. -/
theorem c6_extraction_failure_amended (e : Env) :
    ((∀ m, e.extractResp = Except.error m →
        extract_text_from_video e.extractResp = none) ∧
      (∀ t, e.extractResp = Except.ok t →
        extract_text_from_video e.extractResp = some t) ∧
      (e.extractResp = Except.ok "" →
        (main_pipeline e).summarizeInputs = [] ∧
          (main_pipeline e).rendered = none)) := by
  refine ⟨fun m hm => by rw [hm]; rfl, fun t ht => by rw [ht]; rfl, fun h0 => ?_⟩
  cases h1 : upload_video_to_gemini e with
  | none => simp [main_pipeline, h1]
  | some v => simp [main_pipeline, h1, h0, extract_text_from_video]

theorem c6_extraction_failure_amended_witness :
    (main_pipeline ⟨fun _ => "ACTIVE", true, Except.ok "", Except.ok "S", true⟩).summarizeInputs
        = [] ∧
      (main_pipeline ⟨fun _ => "ACTIVE", true, Except.ok "", Except.ok "S", true⟩).rendered
        = none :=
  (c6_extraction_failure_amended
    ⟨fun _ => "ACTIVE", true, Except.ok "", Except.ok "S", true⟩).2.2 rfl

/-- C7 counterexample: `webm` is on the picker's allow-list, yet both
resolver paths call `tempfile.NamedTemporaryFile` with the literal
`suffix='.mp4'`, so the transient file for an uploaded `.webm` video does
not carry the suffix appropriate for its media type. -/
theorem c7_suffix_counterexample :
    "webm" ∈ accepted_extensions ∧
    resolverSuffix (VideoSource.upload "webm") ≠ appropriateSuffix "webm" :=
  ⟨by decide, by decide⟩

/-- C7 (amended): the resolver persists the bytes to a transient file whose
suffix is the fixed literal `.mp4` on both the URL path and the upload
path, regardless of the media type; that suffix agrees with the
spec-appropriate one only for `mp4` input and differs for every other
allow-listed extension. -/
theorem c7_suffix_amended :
    (∀ src : VideoSource, resolverSuffix src = ".mp4") ∧
    resolverSuffix (VideoSource.upload "mp4") = appropriateSuffix "mp4" ∧
    (∀ ext ∈ accepted_extensions, ext ≠ "mp4" →
      resolverSuffix (VideoSource.upload ext) ≠ appropriateSuffix ext) :=
  ⟨fun src => by cases src <;> rfl, rfl, by decide⟩

theorem c7_suffix_amended_witness :
    resolverSuffix (VideoSource.upload "flv") ≠ appropriateSuffix "flv" :=
  c7_suffix_amended.2.2 "flv" (by decide) (by decide)

/-- C8: for every run that renders results — extracted text `t` and summary
`s` — the three download artifacts are exactly `t` under
`extracted_text.txt`, `s` under `video_summary.txt`, and the concatenation
of both under the fixed section headers of app.py line 303 under
`video_analysis_report.txt`. -/
theorem c8_artifacts (e : Env) (t s : String)
    (h : (main_pipeline e).rendered = some (t, s)) :
    (main_pipeline e).artifacts =
      [("extracted_text.txt", t),
        ("video_summary.txt", s),
        ("video_analysis_report.txt",
          "EXTRACTED TEXT:\n" ++ dashLine ++ "\n" ++ t ++
            "\n\n\nSUMMARY:\n" ++ dashLine ++ "\n" ++ s)] := by
  cases h1 : upload_video_to_gemini e with
  | none => simp [main_pipeline, h1] at h
  | some v =>
    cases h2 : extract_text_from_video e.extractResp with
    | none => simp [main_pipeline, h1, h2] at h
    | some t0 =>
      by_cases ht : t0 = ""
      · simp [main_pipeline, h1, h2, ht] at h
      · cases h3 : summarize_text e.summaryResp with
        | none => simp [main_pipeline, h1, h2, h3, ht] at h
        | some s0 =>
          by_cases hs : s0 = ""
          · simp [main_pipeline, h1, h2, h3, ht, hs] at h
          · have hts : t0 = t ∧ s0 = s := by
              simpa [main_pipeline, h1, h2, h3, ht, hs] using h
            obtain ⟨hts1, hts2⟩ := hts
            subst hts1; subst hts2
            simp [main_pipeline, h1, h2, h3, ht, hs, artifactsFor, combined_text]

theorem c8_artifacts_witness :
    (main_pipeline ⟨fun _ => "ACTIVE", true, Except.ok "E", Except.ok "S", true⟩).artifacts =
      [("extracted_text.txt", "E"),
        ("video_summary.txt", "S"),
        ("video_analysis_report.txt",
          "EXTRACTED TEXT:\n" ++ dashLine ++ "\n" ++ "E" ++
            "\n\n\nSUMMARY:\n" ++ dashLine ++ "\n" ++ "S")] :=
  c8_artifacts ⟨fun _ => "ACTIVE", true, Except.ok "E", Except.ok "S", true⟩ "E" "S" (by decide)
